import Mathlib

/-!
Verification development for the Windows-Services-Manager repository.

The Go source (manager.go, cache.go, wrapper.go, app.go) is shallowly
embedded: maps become association lists, wall-clock instants become
natural-number milliseconds, and every interaction with the Windows
Service Control Manager (SCM), the registry, or the file system is made
an explicit input describing the outcome the OS produced for that call.
-/

/-- OS-native service states as used by the code (golang.org/x/sys/windows/svc).
`paused` stands for any state hitting the `default` branch of the status switch. -/
inductive SvcState where
  | stopped
  | startPending
  | stopPending
  | running
  | paused
deriving DecidableEq, Repr

/-- A Windows service query result: the observed state and the reported process id
(`status.State`, `status.ProcessId`). -/
abbrev SvcQuery := SvcState × Nat

/-- The `Service` record from app.go (the authoritative in-memory record). -/
structure Service where
  id : String
  name : String
  exePath : String
  args : String
  workingDir : String
  status : String
  pid : Nat
  autoStart : Bool
  createdAt : Nat
  updatedAt : Nat
deriving DecidableEq, Repr

/-- The `ServiceConfig` creation request from app.go. -/
structure ServiceConfig where
  name : String
  exePath : String
  args : String
  workingDir : String
  logPath : String
deriving DecidableEq, Repr

/-- Go map lookup (`m[k]`), embedded on an association list. -/
def mapLookup {α : Type} (m : List (String × α)) (k : String) : Option α :=
  match m with
  | [] => none
  | (k₁, v) :: rest => if k₁ = k then some v else mapLookup rest k

/-- Go map insertion (`m[k] = v`): replaces the binding if present, else appends. -/
def mapInsert {α : Type} (m : List (String × α)) (k : String) (v : α) :
    List (String × α) :=
  match m with
  | [] => [(k, v)]
  | (k₁, v₁) :: rest =>
    if k₁ = k then (k₁, v) :: rest else (k₁, v₁) :: mapInsert rest k v

/-- Go map deletion (`delete(m, k)`). -/
def mapErase {α : Type} (m : List (String × α)) (k : String) :
    List (String × α) :=
  match m with
  | [] => []
  | (k₁, v₁) :: rest =>
    if k₁ = k then rest else (k₁, v₁) :: mapErase rest k

/-- `CachedServiceStatus` from cache.go: (Status, PID, Timestamp). -/
structure CachedServiceStatus where
  status : String
  pid : Nat
  timestamp : Nat
deriving DecidableEq, Repr

/-- The cache TTL from cache.go: `ttl: 5 * time.Second`, in milliseconds. -/
def cacheTTLMs : Nat := 5000

/-- `ServiceStatusCache` from cache.go, reduced to its map; the ttl is the
constant `cacheTTLMs` and the lock disappears in the sequential embedding. -/
def ServiceStatusCache := List (String × CachedServiceStatus)

/-- `ServiceStatusCache.Get` from cache.go: a lookup miss, or an entry whose
age exceeds the ttl (`time.Since(status.Timestamp) > cache.ttl`), is a miss. -/
def ServiceStatusCache.Get (cache : ServiceStatusCache) (serviceName : String)
    (now : Nat) : Option CachedServiceStatus :=
  match mapLookup cache serviceName with
  | none => none
  | some status => if now - status.timestamp > cacheTTLMs then none else some status

/-- `ServiceStatusCache.Set` from cache.go: stores (status, pid) stamped with the
current instant. -/
def ServiceStatusCache.Set (cache : ServiceStatusCache) (serviceName : String)
    (status : String) (pid : Nat) (now : Nat) : ServiceStatusCache :=
  mapInsert cache serviceName ⟨status, pid, now⟩

/-- `ServiceStatusCache.Remove` from cache.go. -/
def ServiceStatusCache.Remove (cache : ServiceStatusCache) (serviceName : String) :
    ServiceStatusCache :=
  mapErase cache serviceName

/-- The empty cache, as built by `NewServiceStatusCache`. -/
def emptyCache : ServiceStatusCache := []

/-- The per-rune mapping inside `generateServiceName` (manager.go:522-527):
ASCII letters and digits are kept, every other rune becomes an underscore. -/
def sanitizeRune (r : Char) : Char :=
  if ('a' ≤ r ∧ r ≤ 'z') ∨ ('A' ≤ r ∧ r ≤ 'Z') ∨ ('0' ≤ r ∧ r ≤ '9') then r
  else '_'

/-- The `strings.Map` pass of `generateServiceName` over the display name. -/
def cleanServiceName (displayName : String) : String :=
  String.mk (displayName.data.map sanitizeRune)

/-- `generateServiceName` (manager.go:521-530): `fmt.Sprintf("WSM_%s_%d", cleanName,
time.Now().Unix())`, with the creation instant passed explicitly. -/
def generateServiceName (displayName : String) (nowUnix : Nat) : String :=
  "WSM_" ++ cleanServiceName displayName ++ "_" ++ toString nowUnix

/-- The fixed polling interval of `waitForServiceState` (manager.go:118):
`time.Sleep(500 * time.Millisecond)`, in milliseconds. -/
def pollIntervalMs : Nat := 500

/-- The start/stop wait timeout (manager.go:360, 417): `30 * time.Second`,
in milliseconds. -/
def waitTimeoutMs : Nat := 30000

/-- Error text of manager.go:107. -/
def queryFailedMsg : String := "failed to query service status"

/-- Error text of manager.go:115. -/
def startFailedMsg : String := "service failed to start"

/-- Error text of manager.go:121. -/
def timeoutMsg : String := "timeout waiting for service state"

/-- The poll loop of `waitForServiceState` (manager.go:101-122). The k-th
iteration queries at instant `pollIntervalMs * k` past the loop entry and runs
only while that instant is before the deadline; `queries` gives the OS answer
to the k-th `windowsService.Query()`. The fuel only bounds the recursion — it
is chosen so that the deadline test, not the fuel, ends the loop. -/
def waitFrom (queries : Nat → Except String SvcQuery) (targetState : SvcState) :
    Nat → Nat → Except String Unit
  | 0, _ => .error timeoutMsg
  | fuel + 1, k =>
    if pollIntervalMs * k < waitTimeoutMs then
      match queries k with
      | .error _ => .error queryFailedMsg
      | .ok (st, _) =>
        if st = targetState then .ok ()
        else if targetState = .running ∧ st = .stopped then .error startFailedMsg
        else waitFrom queries targetState fuel (k + 1)
    else .error timeoutMsg

/-- The number of polls the 30 s / 500 ms loop performs before timing out. -/
def maxPolls : Nat := waitTimeoutMs / pollIntervalMs

/-- `waitForServiceState` (manager.go:101-122), over the trace of query answers. -/
def waitForServiceState (queries : Nat → Except String SvcQuery)
    (targetState : SvcState) : Except String Unit :=
  waitFrom queries targetState (maxPolls + 1) 0

/-- The manager's mutable state: the authoritative service map and the status
cache (manager.go:21-27); the snapshot file is derived from the map by
`saveServices` and is modelled separately. -/
structure ManagerState where
  services : List (String × Service)
  statusCache : ServiceStatusCache

/-- OS outcomes consumed by the open-then-query prefix shared by the status
resolution path: whether `scm.OpenService` succeeds, and the answer to the
following `Query`. -/
structure OSQuery where
  openOk : Bool
  query : Except String SvcQuery

/-- Result of `getServiceRealTimeStatus`: the resolved (status, pid) pair, the
cache after the call, and whether the SCM was actually consulted (false when
the answer came from the cache). -/
structure RTStatus where
  status : String
  pid : Nat
  cache : ServiceStatusCache
  queriedOS : Bool

/-- `getServiceRealTimeStatus` (manager.go:476-518): cache hit short-circuits;
open/query failures resolve to ("error", 0) and are written to the cache; an OS
state is mapped to the logical status string and cached. -/
def getServiceRealTimeStatus (cache : ServiceStatusCache) (os : OSQuery)
    (serviceName : String) (now : Nat) : RTStatus :=
  match cache.Get serviceName now with
  | some cachedStatus => ⟨cachedStatus.status, cachedStatus.pid, cache, false⟩
  | none =>
    if !os.openOk then ⟨"error", 0, cache.Set serviceName "error" 0 now, true⟩
    else
      match os.query with
      | .error _ => ⟨"error", 0, cache.Set serviceName "error" 0 now, true⟩
      | .ok (st, qpid) =>
        let sp : String × Nat :=
          match st with
          | .running => ("running", qpid)
          | .stopped => ("stopped", 0)
          | .startPending => ("starting", 0)
          | .stopPending => ("stopping", qpid)
          | .paused => ("error", 0)
        ⟨sp.1, sp.2, cache.Set serviceName sp.1 sp.2 now, true⟩

/-- The per-entry loop of `GetServices` (manager.go:214-224): resolves each
service's status through the cache-then-SCM path, updates the record, and
collects the snapshot list; returns (returned list, updated map, cache). -/
def getServicesLoop (entries : List (String × Service)) (cache : ServiceStatusCache)
    (os : String → OSQuery) (now : Nat) :
    List Service × List (String × Service) × ServiceStatusCache :=
  match entries with
  | [] => ([], [], cache)
  | (key, svc) :: rest =>
    let r := getServiceRealTimeStatus cache (os svc.id) svc.id now
    let svc₁ : Service := { svc with status := r.status, pid := r.pid, updatedAt := now }
    let t := getServicesLoop rest r.cache os now
    (svc₁ :: t.1, (key, svc₁) :: t.2.1, t.2.2)

/-- `GetServices` (manager.go:208-233): connect to the SCM, refresh every
record, return the list; on connect failure return the error and leave the
state unchanged. -/
def GetServices (st : ManagerState) (scmOk : Bool) (os : String → OSQuery)
    (now : Nat) : Except String (List Service) × ManagerState :=
  if !scmOk then (.error "failed to connect to service control manager", st)
  else
    let t := getServicesLoop st.services st.statusCache os now
    (.ok t.1, ⟨t.2.1, t.2.2⟩)

/-- OS outcomes consumed by `StartService` (manager.go:330-380): SCM connect,
service open, the initial `Query`, the `Start` call, the trace answering the
wait loop's queries, and the final `Query` whose error is discarded at
manager.go:368 (`status, _ = windowsService.Query()`). -/
structure StartOS where
  scmOk : Bool
  openOk : Bool
  query0 : Except String SvcQuery
  startOk : Bool
  waitQueries : Nat → Except String SvcQuery
  finalQuery : Except String SvcQuery

/-- Result of `StartService`: the returned error (if any), the manager state
afterwards, and whether `windowsService.Start()` was invoked. -/
structure StartOutcome where
  result : Except String Unit
  state : ManagerState
  issuedStart : Bool

/-- `StartService` (manager.go:330-380). -/
def StartService (st : ManagerState) (os : StartOS) (now : Nat)
    (serviceID : String) : StartOutcome :=
  match mapLookup st.services serviceID with
  | none => ⟨.error ("service does not exist: " ++ serviceID), st, false⟩
  | some svc =>
    if !os.scmOk then ⟨.error "failed to connect to service control manager", st, false⟩
    else if !os.openOk then ⟨.error "failed to open service", st, false⟩
    else
      match os.query0 with
      | .error _ => ⟨.error queryFailedMsg, st, false⟩
      | .ok (st0, _) =>
        if st0 = .running then ⟨.error "service is already running", st, false⟩
        else if !os.startOk then ⟨.error "failed to start service", st, true⟩
        else
          match waitForServiceState os.waitQueries .running with
          | .error e =>
            let svc₁ : Service := { svc with status := "error", updatedAt := now }
            ⟨.error e,
              { st with services := mapInsert st.services serviceID svc₁ }, true⟩
          | .ok _ =>
            let pid : Nat := match os.finalQuery with
              | .ok (_, p) => p
              | .error _ => 0
            let svc₁ : Service :=
              { svc with status := "running", pid := pid, updatedAt := now }
            ⟨.ok (),
              ⟨mapInsert st.services serviceID svc₁,
                st.statusCache.Set serviceID "running" pid now⟩, true⟩

/-- OS outcomes consumed by `StopService` (manager.go:383-433). -/
structure StopOS where
  scmOk : Bool
  openOk : Bool
  query0 : Except String SvcQuery
  controlOk : Bool
  waitQueries : Nat → Except String SvcQuery

/-- Result of `StopService`: the returned error (if any), the state afterwards,
and whether a `Control(svc.Stop)` signal was sent. -/
structure StopOutcome where
  result : Except String Unit
  state : ManagerState
  issuedStop : Bool

/-- `StopService` (manager.go:383-433): an OS-reported `Stopped` returns
success at once, updating only the record, without sending any control signal. -/
def StopService (st : ManagerState) (os : StopOS) (now : Nat)
    (serviceID : String) : StopOutcome :=
  match mapLookup st.services serviceID with
  | none => ⟨.error ("service does not exist: " ++ serviceID), st, false⟩
  | some svc =>
    if !os.scmOk then ⟨.error "failed to connect to service control manager", st, false⟩
    else if !os.openOk then ⟨.error "failed to open service", st, false⟩
    else
      match os.query0 with
      | .error _ => ⟨.error queryFailedMsg, st, false⟩
      | .ok (st0, _) =>
        if st0 = .stopped then
          let svc₁ : Service := { svc with status := "stopped", pid := 0, updatedAt := now }
          ⟨.ok (),
            { st with services := mapInsert st.services serviceID svc₁ }, false⟩
        else if !os.controlOk then ⟨.error "failed to send stop signal", st, true⟩
        else
          match waitForServiceState os.waitQueries .stopped with
          | .error e => ⟨.error e, st, true⟩
          | .ok _ =>
            let svc₁ : Service :=
              { svc with status := "stopped", pid := 0, updatedAt := now }
            ⟨.ok (),
              ⟨mapInsert st.services serviceID svc₁,
                st.statusCache.Set serviceID "stopped" 0 now⟩, true⟩

/-- OS outcomes consumed by `DeleteService` (manager.go:436-473): the best-effort
stop's control/wait results are discarded by the code, so only the query answer
(which decides whether a stop is attempted) and the `Delete` outcome matter. -/
structure DeleteOS where
  scmOk : Bool
  openOk : Bool
  query0 : Except String SvcQuery
  deleteOk : Bool

/-- Result of `DeleteService`. -/
structure DeleteOutcome where
  result : Except String Unit
  state : ManagerState
  issuedStop : Bool

/-- `DeleteService` (manager.go:436-473): best-effort stop when the queried
state is not `Stopped`; a `Delete` failure is surfaced with the map and cache
untouched; success removes the map entry and evicts the cache entry. -/
def DeleteService (st : ManagerState) (os : DeleteOS) (serviceID : String) :
    DeleteOutcome :=
  match mapLookup st.services serviceID with
  | none => ⟨.error ("service does not exist: " ++ serviceID), st, false⟩
  | some _ =>
    if !os.scmOk then ⟨.error "failed to connect to service control manager", st, false⟩
    else if !os.openOk then ⟨.error "failed to open service", st, false⟩
    else
      let issuedStop : Bool := match os.query0 with
        | .ok (st0, _) => if st0 = .stopped then false else true
        | .error _ => false
      if !os.deleteOk then ⟨.error "failed to delete service", st, issuedStop⟩
      else
        ⟨.ok (),
          ⟨mapErase st.services serviceID, st.statusCache.Remove serviceID⟩,
          issuedStop⟩

/-- `GetServiceAutoStart` (manager.go:601-611). -/
def GetServiceAutoStart (st : ManagerState) (serviceID : String) : Bool :=
  match mapLookup st.services serviceID with
  | none => false
  | some svc => svc.autoStart

/-- The start type passed in `mgr.Config` (StartAutomatic / StartManual). -/
inductive StartType where
  | automatic
  | manual
deriving DecidableEq, Repr

/-- The `mgr.Config` fields the code sets when registering the OS service. -/
structure MgrConfig where
  startType : StartType
  displayName : String
  description : String
deriving DecidableEq, Repr

/-- The `mgr.Config` literal built inside `CreateService` (manager.go:258-264):
note `StartType: mgr.StartAutomatic`. -/
def createServiceMgrConfig (name : String) : MgrConfig :=
  ⟨.automatic, name, "Service created by Windows Service Manager: " ++ name⟩

/-- OS outcomes consumed by `CreateService` (manager.go:236-327): the
`os.Stat` existence check, SCM connect, `scm.CreateService`, `os.Executable`,
the three registry writes of `storeServiceConfigInRegistry`, the ImagePath
write, and the Parameters\AppDirectory write. The rollback
`windowsService.Delete()` has its error discarded by the code and is modelled
as effective. -/
structure CreateOS where
  exeExists : Bool
  scmOk : Bool
  createOk : Bool
  currentExe : Except String String
  storeExePathOk : Bool
  storeArgsOk : Bool
  storeWorkDirOk : Bool
  setImagePathOk : Bool
  setWorkDirOk : Bool

/-- `storeServiceConfigInRegistry` (manager.go:187-205): ExePath always
written; Args and WorkingDir written only when non-empty. -/
def storeServiceConfigInRegistry (os : CreateOS) (args workingDir : String) :
    Except String Unit :=
  if !os.storeExePathOk then .error "failed to set ExePath"
  else if args ≠ "" ∧ !os.storeArgsOk then .error "failed to set Args"
  else if workingDir ≠ "" ∧ !os.storeWorkDirOk then .error "failed to set WorkingDir"
  else .ok ()

/-- `createServiceWrapper` (manager.go:172-184): resolve the managing program's
own path, persist the launch parameters, and return the wrapper command line. -/
def createServiceWrapper (os : CreateOS) (serviceName exePath args workingDir :
    String) : Except String String :=
  match os.currentExe with
  | .error _ => .error "failed to get current executable path"
  | .ok currentExe =>
    match storeServiceConfigInRegistry os args workingDir with
    | .error e => .error ("failed to store service configuration: " ++ e)
    | .ok _ => .ok ("\"" ++ currentExe ++ "\" --service-wrapper " ++ serviceName)

/-- The working directory actually used by `CreateService` (manager.go:250-253):
the request's directory, defaulting to the executable's own directory
(`filepath.Dir`, abstracted as `dirOf`). -/
def effectiveWorkingDir (dirOf : String → String) (config : ServiceConfig) :
    String :=
  if config.workingDir = "" then dirOf config.exePath else config.workingDir

/-- Result of `CreateService`: the returned record or error, the manager state
afterwards, whether `scm.CreateService` succeeded, whether the OS-level service
object still exists when the call returns, whether the working-directory
registry value was registered, and the start type handed to the OS (when the
OS-level create was attempted). -/
structure CreateOutcome where
  result : Except String Service
  state : ManagerState
  osServiceCreated : Bool
  osServiceExists : Bool
  workingDirRegistered : Bool
  osStartType : Option StartType

/-- `CreateService` (manager.go:236-327). Wrapper-path setup failure and
ImagePath failure roll the OS service back by deletion (manager.go:277-287); a
working-directory registration failure only logs a warning (manager.go:289-292)
and the call still succeeds. -/
def CreateService (st : ManagerState) (os : CreateOS) (dirOf : String → String)
    (now : Nat) (config : ServiceConfig) : CreateOutcome :=
  if !os.exeExists then
    ⟨.error ("executable does not exist: " ++ config.exePath), st,
      false, false, false, none⟩
  else
    let serviceName := generateServiceName config.name now
    if (mapLookup st.services serviceName).isSome then
      ⟨.error ("service name already exists: " ++ serviceName), st,
        false, false, false, none⟩
    else
      let workingDir := effectiveWorkingDir dirOf config
      if !os.scmOk then
        ⟨.error "failed to connect to service control manager", st,
          false, false, false, none⟩
      else
        let mgrCfg := createServiceMgrConfig config.name
        if !os.createOk then
          ⟨.error "failed to create Windows service", st,
            false, false, false, some mgrCfg.startType⟩
        else
          match createServiceWrapper os serviceName config.exePath config.args
              workingDir with
          | .error e =>
            ⟨.error ("failed to create service wrapper: " ++ e), st,
              true, false, false, some mgrCfg.startType⟩
          | .ok _wrapperPath =>
            if !os.setImagePathOk then
              ⟨.error "failed to set service path", st,
                true, false, false, some mgrCfg.startType⟩
            else
              let service : Service :=
                ⟨serviceName, config.name, config.exePath, config.args,
                  workingDir, "stopped", 0, false, now, now⟩
              ⟨.ok service,
                { st with services := mapInsert st.services serviceName service },
                true, true, os.setWorkDirOk, some mgrCfg.startType⟩

/-- `LoadServiceConfigFromRegistry` (wrapper.go:197-234), over the Parameters
key modelled as an optional partial map from value names to strings (`none`
when the key itself cannot be opened; a field's `none` is `GetStringValue`
failing). Only a missing ExePath is an error; the other fields default. -/
def LoadServiceConfigFromRegistry (key : Option (String → Option String))
    (serviceName : String) : Except String ServiceConfig :=
  match key with
  | none => .error "failed to open service configuration registry"
  | some fields =>
    match fields "ExePath" with
    | none => .error "failed to read ExePath"
    | some exePath =>
      let args := (fields "Args").getD ""
      let workingDir := (fields "WorkingDir").getD ""
      let displayName := (fields "DisplayName").getD serviceName
      let logPath := (fields "StdoutLog").getD ""
      .ok ⟨displayName, exePath, args, workingDir, logPath⟩

/-- JSON values as far as the snapshot file needs them. -/
inductive JValue where
  | jstr (s : String)
  | jnum (n : Nat)
  | jbool (b : Bool)
deriving DecidableEq, Repr

/-- The JSON object `json.MarshalIndent` produces for one `Service`, keyed by
the struct tags of app.go:23-34. -/
def encodeService (s : Service) : List (String × JValue) :=
  [("id", .jstr s.id), ("name", .jstr s.name), ("exePath", .jstr s.exePath),
    ("args", .jstr s.args), ("workingDir", .jstr s.workingDir),
    ("status", .jstr s.status), ("pid", .jnum s.pid),
    ("autoStart", .jbool s.autoStart), ("createdAt", .jnum s.createdAt),
    ("updatedAt", .jnum s.updatedAt)]

/-- Reading a string field back, as `json.Unmarshal` does for a string field. -/
def jGetStr (fields : List (String × JValue)) (k : String) : Option String :=
  match mapLookup fields k with
  | some (.jstr s) => some s
  | _ => none

/-- Reading a numeric field back. -/
def jGetNum (fields : List (String × JValue)) (k : String) : Option Nat :=
  match mapLookup fields k with
  | some (.jnum n) => some n
  | _ => none

/-- Reading a boolean field back. -/
def jGetBool (fields : List (String × JValue)) (k : String) : Option Bool :=
  match mapLookup fields k with
  | some (.jbool b) => some b
  | _ => none

/-- `json.Unmarshal` of one `Service` object. -/
def decodeService (fields : List (String × JValue)) : Option Service := do
  let id ← jGetStr fields "id"
  let name ← jGetStr fields "name"
  let exePath ← jGetStr fields "exePath"
  let args ← jGetStr fields "args"
  let workingDir ← jGetStr fields "workingDir"
  let status ← jGetStr fields "status"
  let pid ← jGetNum fields "pid"
  let autoStart ← jGetBool fields "autoStart"
  let createdAt ← jGetNum fields "createdAt"
  let updatedAt ← jGetNum fields "updatedAt"
  pure ⟨id, name, exePath, args, workingDir, status, pid, autoStart,
    createdAt, updatedAt⟩

/-- `saveServices` (manager.go:533-539): the snapshot is the JSON object
mapping each id to its encoded record. -/
def saveServices (services : List (String × Service)) :
    List (String × List (String × JValue)) :=
  services.map (fun p => (p.1, encodeService p.2))

/-- `loadServices` (manager.go:542-553): `json.Unmarshal` of the snapshot into
a fresh map; a malformed snapshot decodes to `none` (Unmarshal error). -/
def loadServices (snapshot : List (String × List (String × JValue))) :
    Option (List (String × Service)) :=
  match snapshot with
  | [] => some []
  | (key, fields) :: rest => do
    let s ← decodeService fields
    let tail ← loadServices rest
    pure ((key, s) :: tail)

/-- Concrete record used as input by the witness theorems. -/
def svcA : Service :=
  ⟨"WSM_A_0", "A", "C:\\app\\a.exe", "", "C:\\app", "running", 42, false, 0, 0⟩

/-- Concrete manager state holding `svcA`, used by the witness theorems. -/
def stA : ManagerState := ⟨[("WSM_A_0", svcA)], emptyCache⟩

/-- Concrete empty manager state, used by the witness theorems. -/
def emptyState : ManagerState := ⟨[], emptyCache⟩

/-- Concrete creation request, used by the witness theorems. -/
def cfgA : ServiceConfig := ⟨"My App", "C:\\app\\a.exe", "", "", ""⟩

/-- Concrete stand-in for `filepath.Dir`, used by the witness theorems. -/
def dirOfA : String → String := fun _ => "C:\\app"

/-- OS behavior: everything about stopping succeeds and the service is already
stopped. -/
def osStopStopped : StopOS :=
  ⟨true, true, .ok (.stopped, 0), true, fun _ => .ok (.stopped, 0)⟩

/-- OS behavior: open succeeds but the `Delete` call fails. -/
def osDeleteFail : DeleteOS := ⟨true, true, .ok (.running, 42), false⟩

/-- OS behavior: the start is accepted but every poll observes `StartPending`,
so the 30 s wait times out. -/
def osStartTimeout : StartOS :=
  ⟨true, true, .ok (.stopped, 0), true, fun _ => .ok (.startPending, 0),
    .ok (.running, 5)⟩

/-- OS behavior for creation: every step succeeds. -/
def osCreateOk : CreateOS :=
  ⟨true, true, true, .ok "C:\\wsm.exe", true, true, true, true, true⟩

/-- OS behavior for creation: only the working-directory registration fails. -/
def osCreateWorkDirFail : CreateOS :=
  ⟨true, true, true, .ok "C:\\wsm.exe", true, true, true, true, false⟩

/-- OS behavior for creation: the wrapper-path setup fails (resolving the
managing program's own path fails). -/
def osCreateWrapperFail : CreateOS :=
  ⟨true, true, true, .error "no exe", true, true, true, true, true⟩

/-- The record an all-successful creation of `cfgA` at instant 5 produces. -/
def createdSvcA : Service :=
  ⟨"WSM_My_App_5", "My App", "C:\\app\\a.exe", "", "C:\\app", "stopped", 0,
    false, 5, 5⟩

/-- Concrete Parameters key holding only an ExePath value. -/
def exePathOnlyFields : String → Option String :=
  fun k => if k = "ExePath" then some "C:\\x.exe" else none

theorem string_data_append (s t : String) : (s ++ t).data = s.data ++ t.data := by
  cases s; cases t; rfl

theorem mapLookup_mapInsert_self {α : Type} (m : List (String × α)) (k : String)
    (v : α) : mapLookup (mapInsert m k v) k = some v := by
  induction m with
  | nil => simp [mapInsert, mapLookup]
  | cons hd tl ih =>
    by_cases h : hd.1 = k
    · simp [mapInsert, mapLookup, h]
    · simp [mapInsert, mapLookup, h, ih]

/-- C6: a `Set` followed by a `Get` whose age is within the 5 s TTL returns
exactly the stored (status, pid); a `Get` on an absent entry is a miss; a `Get`
whose age exceeds the TTL is a miss, with no explicit `Remove` required. -/
theorem cache_get_set_ttl_spec (cache : ServiceStatusCache) (name status : String)
    (pid : Nat) (t now : Nat) :
    (now - t ≤ cacheTTLMs →
      (cache.Set name status pid t).Get name now = some ⟨status, pid, t⟩) ∧
    (mapLookup cache name = none → cache.Get name now = none) ∧
    (now - t > cacheTTLMs → (cache.Set name status pid t).Get name now = none) := by
  refine ⟨?_, ?_, ?_⟩
  · intro h
    simp [ServiceStatusCache.Get, ServiceStatusCache.Set,
      mapLookup_mapInsert_self, Nat.not_lt.mpr h]
  · intro h
    simp [ServiceStatusCache.Get, h]
  · intro h
    simp [ServiceStatusCache.Get, ServiceStatusCache.Set,
      mapLookup_mapInsert_self, h]

/-- Witness for C6 at a concrete cache, entry and pair of instants. -/
theorem cache_get_set_ttl_spec_witness :
    (((emptyCache.Set "svc" "running" 7 1000).Get "svc" 5000
        = some ⟨"running", 7, 1000⟩) ∧
      (emptyCache.Get "svc" 5000 = none) ∧
      ((emptyCache.Set "svc" "running" 7 1000).Get "svc" 9000
        = none)) := by
  obtain ⟨h₁, h₂, -⟩ := cache_get_set_ttl_spec emptyCache "svc" "running" 7 1000 5000
  obtain ⟨-, -, h₄⟩ := cache_get_set_ttl_spec emptyCache "svc" "running" 7 1000 9000
  exact ⟨h₁ (by decide), h₂ (by rfl), h₄ (by decide)⟩

/-- C2 counterexample: "a.b" and "a-b" are distinct names, yet at the same
creation instant `generateServiceName` gives them the same id, because both
sanitize to "a_b" — id generation is not injective on (name, instant) pairs. -/
theorem generateServiceName_not_injective_on_names :
    (("a.b" : String) ≠ "a-b") ∧
    generateServiceName "a.b" 1700000000 = generateServiceName "a-b" 1700000000 := by
  exact ⟨by decide, by rfl⟩

/-- C2 amended: id generation is injective on (sanitized name, creation instant)
pairs — two requests at the same instant whose names sanitize to different
identifier-safe forms receive distinct ids (distinct raw names alone are not
enough, since sanitization can conflate them). -/
theorem generateServiceName_inj_sanitized (n₁ n₂ : String) (t : Nat)
    (h : cleanServiceName n₁ ≠ cleanServiceName n₂) :
    generateServiceName n₁ t ≠ generateServiceName n₂ t := by
  intro heq
  apply h
  have hdata := congrArg String.data heq
  simp only [generateServiceName, string_data_append] at hdata
  have h₁ := List.append_cancel_right hdata
  have h₂ := List.append_cancel_right h₁
  have h₃ := List.append_cancel_left h₂
  cases hc₁ : cleanServiceName n₁
  cases hc₂ : cleanServiceName n₂
  rw [hc₁, hc₂] at h₃
  simp_all

/-- Witness for the amended C2 at two concretely distinct sanitized names. -/
theorem generateServiceName_inj_sanitized_witness :
    generateServiceName "My App" 0 ≠ generateServiceName "My-Apq" 0 :=
  generateServiceName_inj_sanitized "My App" "My-Apq" 0 (by decide)

theorem maxPolls_eq : maxPolls = 60 := by rfl

theorem mapLookup_mem {α : Type} (m : List (String × α)) (k : String) (v : α)
    (h : mapLookup m k = some v) : (k, v) ∈ m := by
  induction m with
  | nil => simp [mapLookup] at h
  | cons hd tl ih =>
    cases hd with
    | mk k₁ v₁ =>
      by_cases hk : k₁ = k
      · simp [mapLookup, hk] at h
        subst hk
        subst h
        exact List.mem_cons_self _ _
      · simp [mapLookup, hk] at h
        exact List.mem_cons_of_mem _ (ih h)

theorem waitFrom_congr (q q' : Nat → Except String SvcQuery) (target : SvcState)
    (hag : ∀ j, pollIntervalMs * j < waitTimeoutMs → q j = q' j) :
    ∀ fuel k, waitFrom q target fuel k = waitFrom q' target fuel k := by
  intro fuel
  induction fuel with
  | zero => intro k; rfl
  | succ f ih =>
    intro k
    simp only [waitFrom]
    by_cases hk : pollIntervalMs * k < waitTimeoutMs
    · rw [if_pos hk, if_pos hk, hag k hk]
      cases hq : q' k with
      | error e => rfl
      | ok sq =>
        obtain ⟨s, p⟩ := sq
        by_cases h₁ : s = target
        · simp [h₁]
        · by_cases h₂ : target = SvcState.running ∧ s = SvcState.stopped
          · simp [h₁, h₂]
          · simp [h₁, h₂, ih]
    · rw [if_neg hk, if_neg hk]

theorem waitForServiceState_congr (q q' : Nat → Except String SvcQuery)
    (target : SvcState)
    (hag : ∀ j, pollIntervalMs * j < waitTimeoutMs → q j = q' j) :
    waitForServiceState q target = waitForServiceState q' target :=
  waitFrom_congr q q' target hag (maxPolls + 1) 0

theorem waitFrom_decisive_aux (q : Nat → Except String SvcQuery)
    (target : SvcState) (j : Nat) (r : Except String Unit)
    (hj : pollIntervalMs * j < waitTimeoutMs)
    (hdec : ∀ fuel, waitFrom q target (fuel + 1) j = r)
    (hpend : ∀ i, i < j →
      ∃ s p, q i = .ok (s, p) ∧ s ≠ target ∧
        ¬(target = SvcState.running ∧ s = SvcState.stopped)) :
    ∀ d k fuel, k + d = j → fuel + k = maxPolls + 1 →
      waitFrom q target fuel k = r := by
  intro d
  induction d with
  | zero =>
    intro k fuel hk hfuel
    have hkj : k = j := by omega
    subst hkj
    have hfuel1 : ∃ f, fuel = f + 1 := by
      refine ⟨fuel - 1, ?_⟩
      have : pollIntervalMs * k < waitTimeoutMs := hj
      simp [pollIntervalMs, waitTimeoutMs] at this
      simp [maxPolls_eq] at hfuel
      omega
    obtain ⟨f, hf⟩ := hfuel1
    rw [hf]
    exact hdec f
  | succ d ih =>
    intro k fuel hk hfuel
    have hkj : k < j := by omega
    have hck : pollIntervalMs * k < waitTimeoutMs := by
      simp only [pollIntervalMs, waitTimeoutMs] at hj ⊢
      omega
    have hfuel1 : ∃ f, fuel = f + 1 := by
      refine ⟨fuel - 1, ?_⟩
      simp only [pollIntervalMs, waitTimeoutMs] at hj
      simp [maxPolls_eq] at hfuel
      omega
    obtain ⟨f, hf⟩ := hfuel1
    subst hf
    obtain ⟨s, p, hq, hs₁, hs₂⟩ := hpend k hkj
    simp only [waitFrom, if_pos hck, hq]
    simp only [hs₁, if_false, hs₂, ite_false]
    exact ih (k + 1) f (by omega) (by omega)

theorem waitForServiceState_observes_stopped (q : Nat → Except String SvcQuery)
    (j : Nat) (hj : pollIntervalMs * j < waitTimeoutMs)
    (hpend : ∀ i, i < j → ∃ s p, q i = .ok (s, p) ∧
      s ≠ SvcState.running ∧ s ≠ SvcState.stopped)
    (p : Nat) (hstop : q j = .ok (SvcState.stopped, p)) :
    waitForServiceState q SvcState.running = .error startFailedMsg := by
  refine waitFrom_decisive_aux q SvcState.running j _ hj ?_ ?_ j 0 (maxPolls + 1)
    (by omega) (by omega)
  · intro fuel
    simp [waitFrom, hj, hstop]
  · intro i hi
    obtain ⟨s, p', hq, h₁, h₂⟩ := hpend i hi
    exact ⟨s, p', hq, h₁, by simp [h₂]⟩

theorem waitForServiceState_observes_running (q : Nat → Except String SvcQuery)
    (j : Nat) (hj : pollIntervalMs * j < waitTimeoutMs)
    (hpend : ∀ i, i < j → ∃ s p, q i = .ok (s, p) ∧
      s ≠ SvcState.running ∧ s ≠ SvcState.stopped)
    (p : Nat) (hrun : q j = .ok (SvcState.running, p)) :
    waitForServiceState q SvcState.running = .ok () := by
  refine waitFrom_decisive_aux q SvcState.running j _ hj ?_ ?_ j 0 (maxPolls + 1)
    (by omega) (by omega)
  · intro fuel
    simp [waitFrom, hj, hrun]
  · intro i hi
    obtain ⟨s, p', hq, h₁, h₂⟩ := hpend i hi
    exact ⟨s, p', hq, h₁, by simp [h₂]⟩

theorem waitFrom_timeout_aux (q : Nat → Except String SvcQuery)
    (hpend : ∀ i, pollIntervalMs * i < waitTimeoutMs → ∃ s p, q i = .ok (s, p) ∧
      s ≠ SvcState.running ∧ s ≠ SvcState.stopped) :
    ∀ fuel k, fuel + k = maxPolls + 1 →
      waitFrom q SvcState.running fuel k = .error timeoutMsg := by
  intro fuel
  induction fuel with
  | zero => intro k _; rfl
  | succ f ih =>
    intro k hk
    by_cases hc : pollIntervalMs * k < waitTimeoutMs
    · obtain ⟨s, p, hq, h₁, h₂⟩ := hpend k hc
      simp only [waitFrom, if_pos hc, hq]
      rw [if_neg h₁, if_neg (by simp [h₂])]
      exact ih (k + 1) (by omega)
    · simp [waitFrom, hc]

theorem waitForServiceState_timeout (q : Nat → Except String SvcQuery)
    (hpend : ∀ i, pollIntervalMs * i < waitTimeoutMs → ∃ s p, q i = .ok (s, p) ∧
      s ≠ SvcState.running ∧ s ≠ SvcState.stopped) :
    waitForServiceState q SvcState.running = .error timeoutMsg :=
  waitFrom_timeout_aux q hpend (maxPolls + 1) 0 (by omega)

theorem getServicesLoop_mem (entries : List (String × Service)) (key : String)
    (svc : Service) (hmem : (key, svc) ∈ entries) :
    ∀ cache os now, ∃ s, s ∈ (getServicesLoop entries cache os now).1 ∧
      s.id = svc.id ∧ s.name = svc.name := by
  induction entries with
  | nil => simp at hmem
  | cons hd tl ih =>
    intro cache os now
    rcases List.mem_cons.mp hmem with hhd | htl
    · refine ⟨_, List.mem_cons_self _ _, ?_, ?_⟩ <;>
        simp [getServicesLoop, ← hhd]
    · obtain ⟨s, hs, hid, hname⟩ :=
        ih htl (getServiceRealTimeStatus cache (os hd.2.id) hd.2.id now).cache os now
      exact ⟨s, List.mem_cons_of_mem _ hs, hid, hname⟩

/-- C4: on a known service for which the OS reports `Stopped`, `StopService`
returns success immediately, issues no stop control signal, and only refreshes
the record to status "stopped" with pid 0. -/
theorem stopService_idempotent_on_stopped (st : ManagerState) (os : StopOS)
    (now : Nat) (sid : String) (svc : Service) (p : Nat)
    (hsvc : mapLookup st.services sid = some svc)
    (hscm : os.scmOk = true) (hopen : os.openOk = true)
    (hq : os.query0 = .ok (SvcState.stopped, p)) :
    (StopService st os now sid).result = .ok () ∧
    (StopService st os now sid).issuedStop = false ∧
    (StopService st os now sid).state.services
      = mapInsert st.services sid
          ({ svc with status := "stopped", pid := 0, updatedAt := now }) := by
  refine ⟨?_, ?_, ?_⟩ <;> simp [StopService, hsvc, hscm, hopen, hq]

/-- Witness for C4 on a concrete state and OS behavior. -/
theorem stopService_idempotent_on_stopped_witness :
    (StopService stA osStopStopped 9 "WSM_A_0").result = .ok () ∧
    (StopService stA osStopStopped 9 "WSM_A_0").issuedStop = false ∧
    (StopService stA osStopStopped 9 "WSM_A_0").state.services
      = mapInsert stA.services "WSM_A_0"
          ({ svcA with status := "stopped", pid := 0, updatedAt := 9 }) :=
  stopService_idempotent_on_stopped stA osStopStopped 9 "WSM_A_0" svcA 0
    (by rfl) (by rfl) (by rfl) (by rfl)

/-- C3: on a known service whose OS `Delete` call fails, `DeleteService`
surfaces the error and leaves the map (and the cache) untouched — the very same
record, prior status included, is still bound to the id and still appears in a
subsequent `GetServices` listing, so the caller can retry. -/
theorem deleteService_failure_keeps_record (st : ManagerState) (os : DeleteOS)
    (sid : String) (svc : Service)
    (hsvc : mapLookup st.services sid = some svc)
    (hscm : os.scmOk = true) (hopen : os.openOk = true)
    (hdel : os.deleteOk = false) :
    (DeleteService st os sid).result = .error "failed to delete service" ∧
    (DeleteService st os sid).state.services = st.services ∧
    (DeleteService st os sid).state.statusCache = st.statusCache ∧
    mapLookup (DeleteService st os sid).state.services sid = some svc ∧
    ∀ qos : String → OSQuery, ∀ now : Nat, ∃ l,
      (GetServices (DeleteService st os sid).state true qos now).1 = .ok l ∧
      ∃ s, s ∈ l ∧ s.id = svc.id ∧ s.name = svc.name := by
  have hstate : (DeleteService st os sid).state = st := by
    simp [DeleteService, hsvc, hscm, hopen, hdel]
  refine ⟨?_, by rw [hstate], by rw [hstate], by rw [hstate]; exact hsvc, ?_⟩
  · simp [DeleteService, hsvc, hscm, hopen, hdel]
  · intro qos now
    rw [hstate]
    refine ⟨(getServicesLoop st.services st.statusCache qos now).1, ?_, ?_⟩
    · simp [GetServices]
    · exact getServicesLoop_mem st.services sid svc (mapLookup_mem _ _ _ hsvc)
        st.statusCache qos now

/-- Witness for C3 at a concrete state and failing-delete OS behavior. -/
theorem deleteService_failure_keeps_record_witness :
    (DeleteService stA osDeleteFail "WSM_A_0").result
      = .error "failed to delete service" ∧
    mapLookup (DeleteService stA osDeleteFail "WSM_A_0").state.services "WSM_A_0"
      = some svcA ∧
    ∃ l, (GetServices (DeleteService stA osDeleteFail "WSM_A_0").state true
        (fun _ => ⟨true, .ok (.running, 42)⟩) 3).1 = .ok l ∧
      ∃ s, s ∈ l ∧ s.id = svcA.id ∧ s.name = svcA.name := by
  have h := deleteService_failure_keeps_record stA osDeleteFail "WSM_A_0" svcA
    (by rfl) (by rfl) (by rfl) (by rfl)
  exact ⟨h.1, h.2.2.2.1, h.2.2.2.2 (fun _ => ⟨true, .ok (.running, 42)⟩) 3⟩

/-- C5: for a known, not-running service, `StartService` issues a start
request; the subsequent wait consults only the polls taken at the fixed 500 ms
interval inside the 30 s window; a `running` observation within the window
yields success; a `stopped` observation during the wait yields the
start-failure error, which is distinct from the timeout error; and exhausting
the window surfaces the timeout and marks the in-memory record "error". -/
theorem startService_spec (st : ManagerState) (now : Nat) (sid : String)
    (svc : Service) (hsvc : mapLookup st.services sid = some svc) :
    (∀ os : StartOS, os.scmOk = true → os.openOk = true →
      ∀ s0 p0, os.query0 = .ok (s0, p0) → s0 ≠ SvcState.running →
      (StartService st os now sid).issuedStart = true) ∧
    (∀ q q' : Nat → Except String SvcQuery,
      (∀ j, pollIntervalMs * j < waitTimeoutMs → q j = q' j) →
      waitForServiceState q SvcState.running
        = waitForServiceState q' SvcState.running) ∧
    (∀ os : StartOS, os.scmOk = true → os.openOk = true →
      ∀ s0 p0, os.query0 = .ok (s0, p0) → s0 ≠ SvcState.running →
      os.startOk = true →
      ∀ j, pollIntervalMs * j < waitTimeoutMs →
      (∀ i, i < j → ∃ s p, os.waitQueries i = .ok (s, p) ∧
        s ≠ SvcState.running ∧ s ≠ SvcState.stopped) →
      ∀ p, os.waitQueries j = .ok (SvcState.running, p) →
      (StartService st os now sid).result = .ok ()) ∧
    (∀ os : StartOS, os.scmOk = true → os.openOk = true →
      ∀ s0 p0, os.query0 = .ok (s0, p0) → s0 ≠ SvcState.running →
      os.startOk = true →
      ∀ j, pollIntervalMs * j < waitTimeoutMs →
      (∀ i, i < j → ∃ s p, os.waitQueries i = .ok (s, p) ∧
        s ≠ SvcState.running ∧ s ≠ SvcState.stopped) →
      ∀ p, os.waitQueries j = .ok (SvcState.stopped, p) →
      (StartService st os now sid).result = .error startFailedMsg ∧
      startFailedMsg ≠ timeoutMsg) ∧
    (∀ os : StartOS, os.scmOk = true → os.openOk = true →
      ∀ s0 p0, os.query0 = .ok (s0, p0) → s0 ≠ SvcState.running →
      os.startOk = true →
      (∀ k, pollIntervalMs * k < waitTimeoutMs →
        ∃ s p, os.waitQueries k = .ok (s, p) ∧
          s ≠ SvcState.running ∧ s ≠ SvcState.stopped) →
      (StartService st os now sid).result = .error timeoutMsg ∧
      mapLookup (StartService st os now sid).state.services sid
        = some ({ svc with status := "error", updatedAt := now })) := by
  refine ⟨?_, ?_, ?_, ?_, ?_⟩
  · intro os hscm hopen s0 p0 hq0 hs0
    cases hst : os.startOk with
    | false => simp [StartService, hsvc, hscm, hopen, hq0, hs0, hst]
    | true =>
      cases hwr : waitForServiceState os.waitQueries SvcState.running with
      | error e => simp [StartService, hsvc, hscm, hopen, hq0, hs0, hst, hwr]
      | ok u => simp [StartService, hsvc, hscm, hopen, hq0, hs0, hst, hwr]
  · exact fun q q' h => waitForServiceState_congr q q' _ h
  · intro os hscm hopen s0 p0 hq0 hs0 hst j hj hpend p hp
    have hw := waitForServiceState_observes_running os.waitQueries j hj hpend p hp
    simp [StartService, hsvc, hscm, hopen, hq0, hs0, hst, hw]
  · intro os hscm hopen s0 p0 hq0 hs0 hst j hj hpend p hp
    have hw := waitForServiceState_observes_stopped os.waitQueries j hj hpend p hp
    refine ⟨?_, by decide⟩
    simp [StartService, hsvc, hscm, hopen, hq0, hs0, hst, hw]
  · intro os hscm hopen s0 p0 hq0 hs0 hst hpend
    have hw := waitForServiceState_timeout os.waitQueries hpend
    constructor
    · simp [StartService, hsvc, hscm, hopen, hq0, hs0, hst, hw]
    · simp [StartService, hsvc, hscm, hopen, hq0, hs0, hst, hw,
        mapLookup_mapInsert_self]

/-- Witness for C5: a concrete start whose every poll observes `StartPending`
times out and marks the record "error". -/
theorem startService_spec_witness :
    (StartService stA osStartTimeout 9 "WSM_A_0").result = .error timeoutMsg ∧
    mapLookup (StartService stA osStartTimeout 9 "WSM_A_0").state.services
        "WSM_A_0"
      = some ({ svcA with status := "error", updatedAt := 9 }) :=
  (startService_spec stA 9 "WSM_A_0" svcA (by rfl)).2.2.2.2 osStartTimeout
    rfl rfl SvcState.stopped 0 rfl (by decide) rfl
    (fun k _ => ⟨SvcState.startPending, 0, rfl, by decide, by decide⟩)

/-- C7: loading a persisted configuration errors exactly when ExePath cannot be
read (including the whole Parameters key being unopenable); present ExePath
yields success with each absent optional field defaulting — empty string for
Args, WorkingDir and StdoutLog, and the service id for DisplayName. -/
theorem loadServiceConfig_defaults (key : Option (String → Option String))
    (sid : String) :
    ((∃ e, LoadServiceConfigFromRegistry key sid = .error e) ↔
      (∀ fields, key = some fields → fields "ExePath" = none)) ∧
    (∀ fields exePath, key = some fields → fields "ExePath" = some exePath →
      LoadServiceConfigFromRegistry key sid =
        .ok ⟨(fields "DisplayName").getD sid, exePath, (fields "Args").getD "",
          (fields "WorkingDir").getD "", (fields "StdoutLog").getD ""⟩) ∧
    (∀ fields exePath, key = some fields → fields "ExePath" = some exePath →
      fields "Args" = none → fields "WorkingDir" = none →
      fields "DisplayName" = none → fields "StdoutLog" = none →
      LoadServiceConfigFromRegistry key sid = .ok ⟨sid, exePath, "", "", ""⟩) := by
  refine ⟨?_, ?_, ?_⟩
  · cases key with
    | none =>
      simp [LoadServiceConfigFromRegistry]
    | some fields =>
      cases hE : fields "ExePath" with
      | none => simp [LoadServiceConfigFromRegistry, hE]
      | some exePath => simp [LoadServiceConfigFromRegistry, hE]
  · intro fields exePath hkey hE
    subst hkey
    simp [LoadServiceConfigFromRegistry, hE]
  · intro fields exePath hkey hE hA hW hD hS
    subst hkey
    simp [LoadServiceConfigFromRegistry, hE, hA, hW, hD, hS]

/-- Witness for C7 on a concrete Parameters key holding only an ExePath. -/
theorem loadServiceConfig_defaults_witness :
    LoadServiceConfigFromRegistry (some exePathOnlyFields) "WSM_X_1"
      = .ok ⟨"WSM_X_1", "C:\\x.exe", "", "", ""⟩ :=
  (loadServiceConfig_defaults (some exePathOnlyFields) "WSM_X_1").2.2
    exePathOnlyFields "C:\\x.exe" rfl (by decide) (by decide) (by decide)
    (by decide) (by decide)

theorem decodeService_encodeService (s : Service) :
    decodeService (encodeService s) = some s := by
  rfl

theorem loadServices_saveServices (m : List (String × Service)) :
    loadServices (saveServices m) = some m := by
  induction m with
  | nil => rfl
  | cons hd tl ih =>
    simp only [saveServices] at ih ⊢
    simp [loadServices, decodeService_encodeService, ih]

/-- C8: persisting the snapshot and reloading it into a fresh manager map gives
back, for every saved service, a record whose id, name, exePath, args and
workingDir are identical to the saved ones (in fact the whole record). -/
theorem snapshot_roundtrip (m : List (String × Service)) (sid : String)
    (svc : Service) (h : mapLookup m sid = some svc) :
    ∃ m₂, loadServices (saveServices m) = some m₂ ∧
      ∃ svc₂, mapLookup m₂ sid = some svc₂ ∧ svc₂.id = svc.id ∧
        svc₂.name = svc.name ∧ svc₂.exePath = svc.exePath ∧
        svc₂.args = svc.args ∧ svc₂.workingDir = svc.workingDir :=
  ⟨m, loadServices_saveServices m, svc, h, rfl, rfl, rfl, rfl, rfl⟩

/-- Witness for C8 on a concrete one-service map. -/
theorem snapshot_roundtrip_witness :
    ∃ m₂, loadServices (saveServices [("WSM_A_0", svcA)]) = some m₂ ∧
      ∃ svc₂, mapLookup m₂ "WSM_A_0" = some svc₂ ∧ svc₂.id = svcA.id ∧
        svc₂.name = svcA.name ∧ svc₂.exePath = svcA.exePath ∧
        svc₂.args = svcA.args ∧ svc₂.workingDir = svcA.workingDir :=
  snapshot_roundtrip [("WSM_A_0", svcA)] "WSM_A_0" svcA (by rfl)

/-- C10: when the status-resolution path misses the cache and then fails to
open or to query the OS service, it resolves to ("error", 0), writes that pair
into the cache stamped with the current instant, and any later resolution
within the 5 s TTL answers ("error", 0) from the cache without consulting the
SCM at all (whatever the SCM would answer then). -/
theorem statusResolution_failure_cached (cache : ServiceStatusCache)
    (os : OSQuery) (name : String) (now : Nat)
    (hmiss : cache.Get name now = none)
    (hfail : os.openOk = false ∨ (∃ e, os.query = .error e)) :
    (getServiceRealTimeStatus cache os name now).status = "error" ∧
    (getServiceRealTimeStatus cache os name now).pid = 0 ∧
    (getServiceRealTimeStatus cache os name now).cache
      = cache.Set name "error" 0 now ∧
    (∀ os₂ : OSQuery, ∀ later : Nat, later - now ≤ cacheTTLMs →
      (getServiceRealTimeStatus (cache.Set name "error" 0 now) os₂ name
          later).status = "error" ∧
      (getServiceRealTimeStatus (cache.Set name "error" 0 now) os₂ name
          later).pid = 0 ∧
      (getServiceRealTimeStatus (cache.Set name "error" 0 now) os₂ name
          later).queriedOS = false) := by
  have hres : (getServiceRealTimeStatus cache os name now)
      = ⟨"error", 0, cache.Set name "error" 0 now, true⟩ := by
    rcases hfail with hopen | ⟨e, hq⟩
    · simp [getServiceRealTimeStatus, hmiss, hopen]
    · cases hopen : os.openOk with
      | false => simp [getServiceRealTimeStatus, hmiss, hopen]
      | true => simp [getServiceRealTimeStatus, hmiss, hopen, hq]
  refine ⟨by rw [hres], by rw [hres], by rw [hres], ?_⟩
  intro os₂ later hlater
  have hget : (cache.Set name "error" 0 now).Get name later
      = some ⟨"error", 0, now⟩ := by
    simp [ServiceStatusCache.Get, ServiceStatusCache.Set,
      mapLookup_mapInsert_self, Nat.not_lt.mpr hlater]
  refine ⟨?_, ?_, ?_⟩ <;> simp [getServiceRealTimeStatus, hget]

/-- Witness for C10 at a concrete cache miss with a failing open. -/
theorem statusResolution_failure_cached_witness :
    (getServiceRealTimeStatus emptyCache ⟨false, .ok (.running, 1)⟩ "x" 0).status
      = "error" ∧
    (getServiceRealTimeStatus (ServiceStatusCache.Set emptyCache "x" "error" 0 0)
        ⟨true, .ok (.running, 1)⟩ "x" 3000).status = "error" ∧
    (getServiceRealTimeStatus (ServiceStatusCache.Set emptyCache "x" "error" 0 0)
        ⟨true, .ok (.running, 1)⟩ "x" 3000).queriedOS = false := by
  have h := statusResolution_failure_cached emptyCache ⟨false, .ok (.running, 1)⟩
    "x" 0 (by rfl) (Or.inl rfl)
  have h₂ := h.2.2.2 ⟨true, .ok (.running, 1)⟩ 3000 (by decide)
  exact ⟨h.1, h₂.1, h₂.2.2⟩

/-- C9 (implicit): a successful `CreateService` hands the OS a start type of
`automatic`, yet returns a record whose `autoStart` flag is false, and
`GetServiceAutoStart` subsequently reports false for it — the flag disagrees
with the OS boot-launch configuration until `SetServiceAutoStart` is called. -/
theorem createService_autoStart_false (st : ManagerState) (os : CreateOS)
    (dirOf : String → String) (now : Nat) (config : ServiceConfig)
    (svc : Service)
    (h : (CreateService st os dirOf now config).result = .ok svc) :
    svc.autoStart = false ∧
    (CreateService st os dirOf now config).osStartType
      = some StartType.automatic ∧
    (createServiceMgrConfig config.name).startType = StartType.automatic ∧
    GetServiceAutoStart (CreateService st os dirOf now config).state svc.id
      = false := by
  cases hex : os.exeExists with
  | false => simp [CreateService, hex] at h
  | true =>
  cases hdup : (mapLookup st.services (generateServiceName config.name now)).isSome with
  | true => simp [CreateService, hex, hdup] at h
  | false =>
  cases hscm : os.scmOk with
  | false => simp [CreateService, hex, hdup, hscm] at h
  | true =>
  cases hcr : os.createOk with
  | false => simp [CreateService, hex, hdup, hscm, hcr] at h
  | true =>
  cases hw : createServiceWrapper os (generateServiceName config.name now)
      config.exePath config.args (effectiveWorkingDir dirOf config) with
  | error e => simp [CreateService, hex, hdup, hscm, hcr, hw] at h
  | ok w =>
  cases him : os.setImagePathOk with
  | false => simp [CreateService, hex, hdup, hscm, hcr, hw, him] at h
  | true =>
    simp only [CreateService, hex, hdup, hscm, hcr, hw, him] at h ⊢
    simp at h
    refine ⟨?_, by simp [createServiceMgrConfig], by simp [createServiceMgrConfig], ?_⟩
    · rw [← h]
    · rw [← h]
      simp [GetServiceAutoStart, mapLookup_mapInsert_self]

/-- Witness for C9 on a fully successful concrete creation. -/
theorem createService_autoStart_false_witness :
    createdSvcA.autoStart = false ∧
    (CreateService emptyState osCreateOk dirOfA 5 cfgA).osStartType
      = some StartType.automatic ∧
    (createServiceMgrConfig cfgA.name).startType = StartType.automatic ∧
    GetServiceAutoStart (CreateService emptyState osCreateOk dirOfA 5 cfgA).state
        createdSvcA.id = false :=
  createService_autoStart_false emptyState osCreateOk dirOfA 5 cfgA createdSvcA
    (by rfl)

/-- C1 counterexample: with every creation step succeeding except the
working-directory registration, the OS-level service object was created and a
configuration step after creation failed, yet no deletion happens — the OS
service still exists without its working-directory registration, and
`CreateService` even returns success (manager.go:289-292 only logs a warning). -/
theorem createService_workdir_failure_not_rolled_back :
    (CreateService emptyState osCreateWorkDirFail dirOfA 0 cfgA).osServiceCreated
      = true ∧
    osCreateWorkDirFail.setWorkDirOk = false ∧
    (CreateService emptyState osCreateWorkDirFail dirOfA 0 cfgA).workingDirRegistered
      = false ∧
    (CreateService emptyState osCreateWorkDirFail dirOfA 0 cfgA).osServiceExists
      = true ∧
    (CreateService emptyState osCreateWorkDirFail dirOfA 0 cfgA).result
      = .ok ⟨"WSM_My_App_0", "My App", "C:\\app\\a.exe", "", "C:\\app",
          "stopped", 0, false, 0, 0⟩ :=
  ⟨rfl, rfl, rfl, rfl, rfl⟩

/-- C1 amended: after the OS-level service object is created, a failure of the
wrapper-path setup or of the image-path finalization rolls the OS service back
by deletion and surfaces an error; a working-directory registration failure,
however, is not rolled back — the call still succeeds and the OS service object
remains, merely without the working-directory registration. -/
theorem createService_rollback_spec (st : ManagerState) (os : CreateOS)
    (dirOf : String → String) (now : Nat) (config : ServiceConfig)
    (hcreated : (CreateService st os dirOf now config).osServiceCreated = true) :
    (∀ e, createServiceWrapper os (generateServiceName config.name now)
        config.exePath config.args (effectiveWorkingDir dirOf config)
          = .error e →
      (CreateService st os dirOf now config).osServiceExists = false ∧
      ∃ msg, (CreateService st os dirOf now config).result = .error msg) ∧
    (∀ w, createServiceWrapper os (generateServiceName config.name now)
        config.exePath config.args (effectiveWorkingDir dirOf config) = .ok w →
      os.setImagePathOk = false →
      (CreateService st os dirOf now config).osServiceExists = false ∧
      ∃ msg, (CreateService st os dirOf now config).result = .error msg) ∧
    (∀ w, createServiceWrapper os (generateServiceName config.name now)
        config.exePath config.args (effectiveWorkingDir dirOf config) = .ok w →
      os.setImagePathOk = true → os.setWorkDirOk = false →
      (∃ svc, (CreateService st os dirOf now config).result = .ok svc) ∧
      (CreateService st os dirOf now config).osServiceExists = true ∧
      (CreateService st os dirOf now config).workingDirRegistered = false) := by
  cases hex : os.exeExists with
  | false => simp [CreateService, hex] at hcreated
  | true =>
  cases hdup : (mapLookup st.services (generateServiceName config.name now)).isSome with
  | true => simp [CreateService, hex, hdup] at hcreated
  | false =>
  cases hscm : os.scmOk with
  | false => simp [CreateService, hex, hdup, hscm] at hcreated
  | true =>
  cases hcr : os.createOk with
  | false => simp [CreateService, hex, hdup, hscm, hcr] at hcreated
  | true =>
    refine ⟨?_, ?_, ?_⟩
    · intro e he
      refine ⟨?_, "failed to create service wrapper: " ++ e, ?_⟩ <;>
        simp [CreateService, hex, hdup, hscm, hcr, he]
    · intro w hw him
      refine ⟨?_, "failed to set service path", ?_⟩ <;>
        simp [CreateService, hex, hdup, hscm, hcr, hw, him]
    · intro w hw him hwd
      refine ⟨⟨⟨generateServiceName config.name now, config.name, config.exePath,
        config.args, effectiveWorkingDir dirOf config, "stopped", 0, false,
        now, now⟩, ?_⟩, ?_, ?_⟩ <;>
        simp [CreateService, hex, hdup, hscm, hcr, hw, him, hwd]

/-- Witness for the amended C1: a concrete creation whose wrapper-path setup
fails is rolled back. -/
theorem createService_rollback_spec_witness :
    (CreateService emptyState osCreateWrapperFail dirOfA 0 cfgA).osServiceExists
      = false ∧
    ∃ msg, (CreateService emptyState osCreateWrapperFail dirOfA 0 cfgA).result
      = .error msg :=
  (createService_rollback_spec emptyState osCreateWrapperFail dirOfA 0 cfgA
      (by rfl)).1
    "failed to get current executable path" (by rfl)
